import Mathlib

/-
Verification of the AttendXpress makeup-class attendance tracker.

Shallow embedding of `attendance_app` (models.py, views.py, ai_service.py):
  * timestamps are minutes since an epoch in the configured zone (`Int`);
  * calendar dates are day indices (`Nat`) with day 0 a Monday, so that
    `weekday d = d % 7` matches Python's `date.weekday()` (Mon = 0 .. Sun = 6);
  * times of day are minutes after midnight (`Nat`);
  * the relational store is an explicit `DB` record of row lists;
  * Python float arithmetic is modelled with exact rationals, and Python's
    banker's rounding (`round`) with `pyRound` below.
-/

namespace AttendX

/-- Session status, from `MakeUpClass.STATUS_CHOICES` (models.py). -/
inductive Status where
  | scheduled
  | active
  | completed
  | cancelled
deriving DecidableEq, Repr

/-- A `MakeUpClass` row (models.py lines 47-70).  `scheduledDate` is a day
index, `startTime`/`endTime` minutes after midnight, `codeExpiry` an absolute
timestamp in minutes (nullable, as in the model field). -/
structure Session where
  id : Nat
  courseId : Nat
  facultyId : Nat
  title : String
  scheduledDate : Nat
  startTime : Nat
  endTime : Nat
  remedialCode : String
  codeExpiry : Option Int
  status : Status
deriving DecidableEq, Repr

/-- A `Course` row with its many-to-many student set (models.py lines 31-41). -/
structure Course where
  id : Nat
  facultyId : Nat
  students : List Nat
deriving DecidableEq, Repr

/-- An `AttendanceRecord` row (models.py lines 93-106). -/
structure ARecord where
  makeupClass : Nat
  student : Nat
  isPresent : Bool
  markedAt : Int
  verificationMethod : String
  ipAddress : Option String
deriving DecidableEq, Repr

/-- A `Notification` row (models.py lines 117-132). -/
structure Notif where
  recipient : Nat
  notificationType : String
  title : String
  message : String
  relatedClass : Option Nat
deriving DecidableEq, Repr

/-- The relational store: the tables the core operations touch. -/
structure DB where
  sessions : List Session
  courses : List Course
  records : List ARecord
  notifications : List Notif
deriving Repr

/-- Python's `date.weekday()`: Monday = 0 .. Sunday = 6 (day 0 is a Monday). -/
def weekday (d : Nat) : Nat := d % 7

/-- `datetime.combine(scheduled_date, end_time)` made aware in the configured
zone, as an absolute timestamp in minutes (models.py line 78-79). -/
def combineDT (date : Nat) (timeOfDay : Nat) : Int :=
  (date : Int) * 1440 + (timeOfDay : Int)

/-- `MakeUpClass.save` (models.py lines 75-80): on first persist without an
expiry, set `code_expiry` to (date + end_time) + 1 hour.  `scheduled_date` and
`end_time` are non-nullable fields (and truthy in Python), so the guard
reduces to `code_expiry` being unset. -/
def save (s : Session) : Session :=
  match s.codeExpiry with
  | none => { s with codeExpiry := some (combineDT s.scheduledDate s.endTime + 60) }
  | some _ => s

/-- `activate_code` (views.py lines 238-246): set status to `active`, then
save.  The notification fan-out does not touch the session row. -/
def activate (s : Session) : Session :=
  save { s with status := Status.active }

/-- `complete_class` (views.py lines 249-256): set status to `completed`,
then save. -/
def complete (s : Session) : Session :=
  save { s with status := Status.completed }

/-- `MakeUpClass.is_code_valid` (models.py lines 82-86): active status, an
expiry on record (Python datetimes are always truthy), and now before it. -/
def isCodeValid (s : Session) (now : Int) : Bool :=
  if s.status = Status.active then
    match s.codeExpiry with
    | some e => now < e
    | none => false
  else false

/-- Number of present marks for a session:
`MakeUpClass.attendance_count` (models.py lines 88-90). -/
def attendanceCount (db : DB) (sessionId : Nat) : Nat :=
  (db.records.filter (fun r => r.makeupClass = sessionId && r.isPresent)).length

/-- Enrolled-student count of a course: `course.students.count()`. -/
def enrolledCount (db : DB) (courseId : Nat) : Nat :=
  match db.courses.find? (fun c => c.id = courseId) with
  | some c => c.students.length
  | none => 0

/-- `makeup.course.students.filter(pk=request.user.pk).exists()`
(views.py line 288). -/
def enrolledIn (db : DB) (courseId : Nat) (student : Nat) : Bool :=
  match db.courses.find? (fun c => c.id = courseId) with
  | some c => c.students.contains student
  | none => false

/-- Client origin address (views.py lines 297-298): first entry of
`X-Forwarded-For` when present, else `REMOTE_ADDR`. -/
def clientIP (xForwarded : Option String) (remoteAddr : Option String) : Option String :=
  match xForwarded with
  | some x => some ((x.splitOn ",").headD x)
  | none => remoteAddr

/-- The five check-in outcomes of the validated check-in path
(views.py `mark_attendance`), named as in the spec. -/
inductive CheckinOutcome where
  | notFound
  | notEnrolled
  | inactiveOrExpired
  | alreadyMarked
  | success
deriving DecidableEq, Repr

/-- `mark_attendance` (views.py lines 274-324), the validated check-in for an
authenticated student: look the code up, check enrollment, code validity and
an existing mark in that order; on success insert one `AttendanceRecord` and
one `Notification` to the session's faculty.  `stuName` stands for
`request.user.get_full_name()`. -/
def markAttendance (db : DB) (stu : Nat) (stuName : String) (code : String)
    (now : Int) (xForwarded : Option String) (remoteAddr : Option String) :
    CheckinOutcome × DB :=
  match db.sessions.find? (fun s => s.remedialCode = code) with
  | none => (CheckinOutcome.notFound, db)
  | some m =>
    if ¬ enrolledIn db m.courseId stu then
      (CheckinOutcome.notEnrolled, db)
    else if ¬ isCodeValid m now then
      (CheckinOutcome.inactiveOrExpired, db)
    else if db.records.any (fun r => r.makeupClass = m.id && r.student = stu) then
      (CheckinOutcome.alreadyMarked, db)
    else
      let ip := clientIP xForwarded remoteAddr
      let rec0 : ARecord :=
        { makeupClass := m.id, student := stu, isPresent := true,
          markedAt := now, verificationMethod := "code", ipAddress := ip }
      let n0 : Notif :=
        { recipient := m.facultyId, notificationType := "attendance_marked",
          title := "Attendance Marked",
          message := stuName ++ " marked attendance for \"" ++ m.title ++ "\".",
          relatedClass := some m.id }
      (CheckinOutcome.success,
        { db with records := db.records ++ [rec0],
                  notifications := db.notifications ++ [n0] })

/- ── AI service (ai_service.py) ─────────────────────────────────────────── -/

/-- Stable insertion step: `keep y x = true` means an earlier element `y` may
stay in front of the inserted `x`.  Used to model Python's stable sorts. -/
def insertOrd (keep : α → α → Bool) (x : α) : List α → List α
  | [] => [x]
  | y :: ys => if keep y x then y :: insertOrd keep x ys else x :: y :: ys

/-- Stable sort with respect to `keep` (earlier-may-stay-before relation). -/
def sortOrd (keep : α → α → Bool) (l : List α) : List α :=
  l.foldl (fun acc x => insertOrd keep x acc) []

/-- Python's `round` on an exact rational: round half to even.  (Binary float
representation artifacts are not modelled.) -/
def pyRound (q : ℚ) : ℤ :=
  let f : ℤ := ⌊q⌋
  let frac : ℚ := q - f
  if frac < 1/2 then f
  else if 1/2 < frac then f + 1
  else if f % 2 = 0 then f else f + 1

/-- `round(x, 1)`. -/
def pyRound1 (q : ℚ) : ℚ := (pyRound (q * 10) : ℚ) / 10

/-- `round(x, 2)`. -/
def pyRound2 (q : ℚ) : ℚ := (pyRound (q * 100) : ℚ) / 100

/-- Day-of-week multiplier table of `predict_attendance`
(ai_service.py lines 43-45): `day_factors.get(day, 0.80)`. -/
def dayFactor (day : Nat) : ℚ :=
  if day = 0 then 17/20
  else if day = 1 then 9/10
  else if day = 2 then 22/25
  else if day = 3 then 23/25
  else if day = 4 then 4/5
  else if day = 5 then 3/5
  else if day = 6 then 9/20
  else 4/5

/-- Time-of-day multiplier of `predict_attendance`
(ai_service.py lines 47-56), keyed by `start_time.hour`. -/
def timeFactor (hour : Nat) : ℚ :=
  if 9 ≤ hour ∧ hour ≤ 11 then 19/20
  else if 14 ≤ hour ∧ hour ≤ 16 then 9/10
  else if 17 ≤ hour ∧ hour ≤ 19 then 3/4
  else 13/20

/-- The most recent up-to-10 completed sessions of a course:
`MakeUpClass.objects.filter(course=course, status='completed')
.order_by('-scheduled_date')[:10]` (ai_service.py lines 27-29). -/
def pastClasses (db : DB) (courseId : Nat) : List Session :=
  (sortOrd (fun a b => decide (b.scheduledDate ≤ a.scheduledDate))
    (db.sessions.filter
      (fun s => s.courseId = courseId && s.status = Status.completed))).take 10

/-- Effective enrollment, `course.students.count() or 30`
(ai_service.py line 31). -/
def effEnrolled (db : DB) (courseId : Nat) : Nat :=
  if enrolledCount db courseId = 0 then 30 else enrolledCount db courseId

/-- Historical base rate of `predict_attendance` (ai_service.py lines 32-40):
mean of per-session present-rate over the past classes, default 0.75. -/
def baseRate (db : DB) (courseId : Nat) : ℚ :=
  let past := pastClasses db courseId
  let enrolled := effEnrolled db courseId
  if past.isEmpty then 3/4
  else
    (past.foldl
      (fun t c =>
        if 0 < enrolled then t + (attendanceCount db c.id : ℚ) / enrolled else t)
      0) / past.length

/-- Result record of `predict_attendance` (ai_service.py lines 67-73). -/
structure Prediction where
  predictedCount : ℤ
  enrolledCount : Nat
  predictedRate : ℚ
  rushLevel : String
  confidence : ℚ
deriving DecidableEq, Repr

/-- `AIService.predict_attendance` (ai_service.py lines 19-73).  `startMin` is
the target start time in minutes after midnight; `int(...)` on the
nonnegative predicted product is the floor. -/
def predictAttendance (db : DB) (courseId : Nat) (scheduledDate : Nat)
    (startMin : Nat) : Prediction :=
  let past := pastClasses db courseId
  let enrolled := effEnrolled db courseId
  let base := baseRate db courseId
  let fDay := dayFactor (weekday scheduledDate)
  let fTime := timeFactor (startMin / 60)
  let rate := base * fDay * fTime
  { predictedCount := ⌊(enrolled : ℚ) * rate⌋,
    enrolledCount := enrolled,
    predictedRate := pyRound1 (rate * 100),
    rushLevel :=
      if 17/20 < rate then "high" else if 13/20 < rate then "medium" else "low",
    confidence := pyRound2 (min (19/20) (1/2 + (past.length : ℚ) * (1/20))) }

/-- `AIService._score_slot` (ai_service.py lines 114-125); `startMin` in
minutes, the scored hour is its integral hour part. -/
def scoreSlot (date : Nat) (startMin : Nat) : Nat :=
  let hour := startMin / 60
  let day := weekday date
  let s1 := if day = 1 ∨ day = 2 ∨ day = 3 then 110 else 100
  if 9 ≤ hour ∧ hour ≤ 11 then s1 + 20
  else if 14 ≤ hour ∧ hour ≤ 16 then s1 + 15
  else s1

/-- `AIService._slot_reason` (ai_service.py lines 127-138). -/
def slotReason (date : Nat) (startMin : Nat) : String :=
  let hour := startMin / 60
  let day := weekday date
  let rs :=
    (if day = 1 ∨ day = 2 then ["Mid-week slots see higher attendance"] else [])
    ++ (if 9 ≤ hour ∧ hour ≤ 11 then ["Morning sessions have best engagement"]
        else if 14 ≤ hour ∧ hour ≤ 16 then ["Afternoon slots are well-attended"]
        else [])
  if rs.isEmpty then "Good availability window" else String.intercalate "; " rs

/-- One recommendation entry (ai_service.py lines 100-107); times in minutes
after midnight. -/
structure Rec where
  date : Nat
  startTime : Nat
  endTime : Nat
  score : Nat
  reason : String
deriving DecidableEq, Repr

/-- The four candidate windows (ai_service.py line 91):
09:00-10:30, 10:30-12:00, 14:00-15:30, 15:30-17:00. -/
def slotWindows : List (Nat × Nat) := [(540, 630), (630, 720), (840, 930), (930, 1020)]

/-- Occupied (date, start-time) pairs of the course's scheduled/active
sessions (ai_service.py lines 82-86). -/
def bookedSlots (db : DB) (courseId : Nat) : List (Nat × Nat) :=
  (db.sessions.filter
    (fun s => s.courseId = courseId &&
      (s.status = Status.scheduled || s.status = Status.active))).map
    (fun s => (s.scheduledDate, s.startTime))

/-- Candidates of one scanned day (the inner slot loop,
ai_service.py lines 97-107). -/
def daySlots (booked : List (Nat × Nat)) (date : Nat) : List Rec :=
  (slotWindows.filter (fun w => ¬ booked.contains (date, w.1))).map
    (fun w =>
      { date := date, startTime := w.1, endTime := w.2,
        score := scoreSlot date w.1, reason := slotReason date w.1 })

/-- The 14-day scan with early stop (ai_service.py lines 94-109): Monday to
Thursday days only; after each qualifying day, stop once at least 5
candidates have accumulated. -/
def collectSlots (booked : List (Nat × Nat)) : Nat → Nat → List Rec → List Rec
  | 0, _, acc => acc
  | n + 1, date, acc =>
    if weekday date = 0 ∨ weekday date = 1 ∨ weekday date = 2 ∨ weekday date = 3 then
      let acc2 := acc ++ daySlots booked date
      if 5 ≤ acc2.length then acc2 else collectSlots booked n (date + 1) acc2
    else collectSlots booked n (date + 1) acc

/-- `AIService.get_schedule_recommendations` (ai_service.py lines 76-112).
`base` stands for `timezone.now().date() + 1 day` (tomorrow); the collected
candidates are stably sorted by score descending and cut to 5. -/
def getScheduleRecommendations (db : DB) (courseId : Nat) (base : Nat) : List Rec :=
  (sortOrd (fun a b => decide (b.score ≤ a.score))
    (collectSlots (bookedSlots db courseId) 14 base [])).take 5

/-- Per-session attendance rates of the completed sessions of a course in
`scheduled_date` ascending order, over `course.students.count() or 1`
(ai_service.py lines 150, 170). -/
def patternRates (db : DB) (courseId : Nat) : List ℚ :=
  let enrolled := if enrolledCount db courseId = 0 then 1 else enrolledCount db courseId
  (sortOrd (fun a b => decide (a.scheduledDate ≤ b.scheduledDate))
    (db.sessions.filter
      (fun s => s.courseId = courseId && s.status = Status.completed))).map
    (fun c => (attendanceCount db c.id : ℚ) / enrolled * 100)

/-- Mean of the last three rates, `sum(rates[-3:]) / 3`
(ai_service.py line 172). -/
def recentAvg (rates : List ℚ) : ℚ := ((rates.drop (rates.length - 3)).sum) / 3

/-- Mean of the first three rates, `sum(rates[:3]) / 3`
(ai_service.py line 173). -/
def olderAvg (rates : List ℚ) : ℚ := ((rates.take 3).sum) / 3

/-- Trend label of the trend insight appended by
`AIService.analyze_attendance_patterns` when at least 3 completed sessions
exist (ai_service.py lines 169-181): `'improving' if recent_avg > older_avg
else 'declining'`; `none` when fewer than 3 rates exist. -/
def trendInsight (db : DB) (courseId : Nat) : Option String :=
  let rates := patternRates db courseId
  if 3 ≤ rates.length then
    some (if olderAvg rates < recentAvg rates then "improving" else "declining")
  else none

/-- Response of `api_attendance_chart` (views.py lines 446-458). -/
structure ChartResponse where
  present : Nat
  absent : ℤ
  enrolled : Nat
  rate : ℚ
deriving DecidableEq, Repr

/-- `api_attendance_chart` (views.py lines 446-458): present count over the
session's records, enrollment of its course, `absent = max(enrolled -
present, 0)` (Python subtraction of ints, possibly negative before the
clamp), and `rate = round(present / enrolled * 100, 1) if enrolled else 0`. -/
def apiAttendanceChart (db : DB) (m : Session) : ChartResponse :=
  let present :=
    (db.records.filter (fun r => r.makeupClass = m.id && r.isPresent)).length
  let enrolled := enrolledCount db m.courseId
  { present := present,
    absent := max ((enrolled : ℤ) - (present : ℤ)) 0,
    enrolled := enrolled,
    rate := if enrolled = 0 then 0
            else pyRound1 ((present : ℚ) / (enrolled : ℚ) * 100) }

/-- The time-of-day multiplier as the spec's claim words it: ranges half-open
on the hour boundary, a start hour exactly at the upper boundary of a range
falling outside that range.  For comparison with `timeFactor`, which embeds
the source. -/
def timeFactorHalfOpen (hour : Nat) : ℚ :=
  if 9 ≤ hour ∧ hour < 11 then 19/20
  else if 14 ≤ hour ∧ hour < 16 then 9/10
  else if 17 ≤ hour ∧ hour < 19 then 3/4
  else 13/20

/- ── Concrete instances used to exercise the definitions ────────────────── -/

/-- An active session with expiry at minute 100. -/
def sessA : Session :=
  { id := 1, courseId := 1, facultyId := 5, title := "Revision Session",
    scheduledDate := 0, startTime := 540, endTime := 630,
    remedialCode := "K2XQ71LM", codeExpiry := some 100, status := Status.active }

/-- A freshly constructed session with no expiry yet. -/
def sessNoExpiry : Session :=
  { id := 2, courseId := 1, facultyId := 5, title := "Lab Make-up",
    scheduledDate := 3, startTime := 540, endTime := 660,
    remedialCode := "P0QF55ZT", codeExpiry := none, status := Status.scheduled }

/-- A completed session. -/
def sessDone : Session :=
  { id := 3, courseId := 1, facultyId := 5, title := "Completed Session",
    scheduledDate := 1, startTime := 540, endTime := 630,
    remedialCode := "D8NN21RW", codeExpiry := some 200, status := Status.completed }

/-- Course 1 with students 0..29 enrolled. -/
def demoCourse : Course := { id := 1, facultyId := 50, students := List.range 30 }

/-- A completed historical session of course 1. -/
def histSession (sid date : Nat) : Session :=
  { id := sid, courseId := 1, facultyId := 50, title := "Hist",
    scheduledDate := date, startTime := 540, endTime := 630,
    remedialCode := "H" ++ toString sid, codeExpiry := some 0,
    status := Status.completed }

/-- Present marks by students `0..k-1` for session `sid`. -/
def presentMarks (sid k : Nat) : List ARecord :=
  (List.range k).map (fun i =>
    { makeupClass := sid, student := i, isPresent := true, markedAt := 0,
      verificationMethod := "code", ipAddress := none })

/-- Course 1 history: 3 completed sessions with 20, 25 and 30 of the 30
enrolled students present. -/
def demoDB : DB :=
  { sessions := [histSession 10 1, histSession 11 2, histSession 12 3],
    courses := [demoCourse],
    records := presentMarks 10 20 ++ presentMarks 11 25 ++ presentMarks 12 30,
    notifications := [] }

/-- Course 2 with students 7 and 8 enrolled, owned by faculty 5. -/
def courseW : Course := { id := 2, facultyId := 5, students := [7, 8] }

/-- An active session of course 2 with code AB12CD34, expiring at minute
1000. -/
def sessW : Session :=
  { id := 20, courseId := 2, facultyId := 5, title := "Extra OS Class",
    scheduledDate := 8, startTime := 540, endTime := 630,
    remedialCode := "AB12CD34", codeExpiry := some 1000, status := Status.active }

/-- A store holding course 2 and its active session, with no marks yet. -/
def checkinDB : DB :=
  { sessions := [sessW], courses := [courseW], records := [], notifications := [] }

/-- An empty store. -/
def emptyDB : DB :=
  { sessions := [], courses := [], records := [], notifications := [] }

/-- A session of a course that has no enrolled students. -/
def sessNoStudents : Session :=
  { id := 30, courseId := 3, facultyId := 5, title := "Orphan Session",
    scheduledDate := 0, startTime := 540, endTime := 630,
    remedialCode := "Q9ZZ00AA", codeExpiry := some 100, status := Status.completed }

/-- A store where session 30's course has zero enrolled students but five
present marks exist for it. -/
def chartDB : DB :=
  { sessions := [sessNoStudents],
    courses := [{ id := 3, facultyId := 5, students := [] }],
    records := presentMarks 30 5, notifications := [] }

/- ── Helper lemmas ──────────────────────────────────────────────────────── -/

/-- Saving never changes the status field. -/
lemma save_status (s : Session) : (save s).status = s.status := by
  unfold save
  cases s.codeExpiry <;> simp

/-- Saving a session whose expiry is set is the identity. -/
lemma save_of_expiry_set (s : Session) (e : Int) (h : s.codeExpiry = some e) :
    save s = s := by
  unfold save
  rw [h]

/-- Membership in an `insertOrd` result. -/
lemma mem_insertOrd (keep : α → α → Bool) (x z : α) :
    ∀ l : List α, z ∈ insertOrd keep x l ↔ z = x ∨ z ∈ l
  | [] => by simp [insertOrd]
  | y :: ys => by
    rw [insertOrd]
    by_cases hk : keep y x
    · rw [if_pos hk]
      simp [mem_insertOrd keep x z ys]
      tauto
    · rw [if_neg hk]
      simp

/-- `insertOrd` preserves pairwise `keep`-orderedness, given totality and
transitivity of `keep`. -/
lemma pairwise_insertOrd (keep : α → α → Bool)
    (htot : ∀ a b, keep a b = false → keep b a = true)
    (htrans : ∀ a b c, keep a b = true → keep b c = true → keep a c = true)
    (x : α) :
    ∀ l : List α, l.Pairwise (fun a b => keep a b = true) →
      (insertOrd keep x l).Pairwise (fun a b => keep a b = true)
  | [], _ => by simp [insertOrd]
  | y :: ys, h => by
    rw [insertOrd]
    rcases List.pairwise_cons.1 h with ⟨hy, hys⟩
    by_cases hk : keep y x
    · rw [if_pos hk]
      refine List.pairwise_cons.2 ⟨?_, pairwise_insertOrd keep htot htrans x ys hys⟩
      intro z hz
      rcases (mem_insertOrd keep x z ys).1 hz with hzx | hzys
      · exact hzx ▸ hk
      · exact hy z hzys
    · rw [if_neg hk]
      refine List.pairwise_cons.2 ⟨?_, h⟩
      intro z hz
      have hxy : keep x y = true := htot y x (Bool.eq_false_iff.2 hk)
      rcases List.mem_cons.1 hz with hzy | hzys
      · exact hzy ▸ hxy
      · exact htrans x y z hxy (hy z hzys)

/-- `sortOrd` produces a pairwise `keep`-ordered list. -/
lemma pairwise_sortOrd (keep : α → α → Bool)
    (htot : ∀ a b, keep a b = false → keep b a = true)
    (htrans : ∀ a b c, keep a b = true → keep b c = true → keep a c = true)
    (l : List α) :
    (sortOrd keep l).Pairwise (fun a b => keep a b = true) := by
  suffices h : ∀ l acc : List α, acc.Pairwise (fun a b => keep a b = true) →
      (l.foldl (fun acc x => insertOrd keep x acc) acc).Pairwise
        (fun a b => keep a b = true) by
    exact h l [] (List.Pairwise.nil)
  intro l
  induction l with
  | nil => intro acc hacc; simpa using hacc
  | cons x xs ih =>
    intro acc hacc
    exact ih (insertOrd keep x acc) (pairwise_insertOrd keep htot htrans x acc hacc)

/-- With globally unique codes, the lookup by code finds any member session
bearing the code. -/
lemma find_code_of_mem (db : DB) (code : String)
    (huniq : ∀ a ∈ db.sessions, ∀ b ∈ db.sessions,
      a.remedialCode = b.remedialCode → a = b)
    (m : Session) (hm : m ∈ db.sessions) (hc : m.remedialCode = code) :
    db.sessions.find? (fun s => s.remedialCode = code) = some m := by
  cases hfind : db.sessions.find? (fun s => s.remedialCode = code) with
  | none =>
    exfalso
    have := List.find?_eq_none.1 hfind m hm
    simp [hc] at this
  | some x =>
    have hx : x ∈ db.sessions := List.mem_of_find?_eq_some hfind
    have hpx : x.remedialCode = code := by
      have := List.find?_some hfind
      simpa using this
    have : x = m := huniq x hx m hm (hpx.trans hc.symm)
    rw [this]

/-- `isCodeValid` unfolded to the spec's propositional form. -/
lemma isCodeValid_iff (s : Session) (now : Int) :
    isCodeValid s now = true ↔
      s.status = Status.active ∧ ∃ e, s.codeExpiry = some e ∧ now < e := by
  unfold isCodeValid
  by_cases hs : s.status = Status.active
  · rw [if_pos hs]
    cases he : s.codeExpiry with
    | none => simp [hs, he]
    | some e => simp [hs, he]
  · rw [if_neg hs]
    simp [hs]

/- ── Claim theorems ─────────────────────────────────────────────────────── -/

/-- C3: for every session and current time, `is_code_valid` is true iff the
session's status is `active` and the current time is strictly before the
stored expiry; in particular it is false when the current time equals the
expiry. -/
theorem is_code_valid_characterization (s : Session) (now e : Int) :
    (s.codeExpiry = some e →
      (isCodeValid s now = true ↔ (s.status = Status.active ∧ now < e))) ∧
    (s.codeExpiry = some now → isCodeValid s now = false) := by
  constructor
  · intro he
    rw [isCodeValid_iff]
    simp [he]
  · intro he
    cases hval : isCodeValid s now
    · rfl
    · exfalso
      rcases (isCodeValid_iff s now).1 hval with ⟨-, e2, he2, hlt⟩
      rw [he] at he2
      cases Option.some.inj he2
      exact lt_irrefl now hlt

/-- Witness for C3: the characterization applied to a concrete active
session with expiry 100, at time 50 and at the boundary time 100. -/
theorem is_code_valid_characterization_witness :
    (isCodeValid sessA 50 = true ↔ (sessA.status = Status.active ∧ (50 : Int) < 100)) ∧
    isCodeValid sessA 100 = false :=
  ⟨(is_code_valid_characterization sessA 50 100).1 rfl,
   (is_code_valid_characterization sessA 100 100).2 rfl⟩

/-- C4: a session persisted without an expiry gets
(date + end_time) + 1 hour; a save of a session whose expiry is set changes
nothing, and activation (status to `active`, then save) leaves the stored
expiry unchanged; the expiry is set exactly once (a second save cannot
change it). -/
theorem expiry_set_once (s : Session) :
    (s.codeExpiry = none →
      (save s).codeExpiry = some (combineDT s.scheduledDate s.endTime + 60)) ∧
    (∀ e : Int, s.codeExpiry = some e →
      save s = s ∧ (activate s).codeExpiry = some e ∧
        (activate s).status = Status.active) ∧
    (save (save s)).codeExpiry = (save s).codeExpiry := by
  refine ⟨?_, ?_, ?_⟩
  · intro h
    unfold save
    rw [h]
  · intro e he
    refine ⟨save_of_expiry_set s e he, ?_, ?_⟩
    · unfold activate
      rw [save_of_expiry_set { s with status := Status.active } e he]
      exact he
    · unfold activate
      rw [save_status]
  · cases h : s.codeExpiry <;> simp [save, h]

/-- Witness for C4: a fresh session gets its computed expiry, and saving or
activating the already-expiry-bearing session `sessA` leaves it at 100. -/
theorem expiry_set_once_witness :
    (save sessNoExpiry).codeExpiry =
      some (combineDT sessNoExpiry.scheduledDate sessNoExpiry.endTime + 60) ∧
    save sessA = sessA ∧
    (activate sessA).codeExpiry = some 100 ∧
    (activate sessA).status = Status.active :=
  ⟨(expiry_set_once sessNoExpiry).1 rfl,
   ((expiry_set_once sessA).2.1 100 rfl).1,
   ((expiry_set_once sessA).2.1 100 rfl).2.1,
   ((expiry_set_once sessA).2.1 100 rfl).2.2⟩

/-- C7 counterexample: `activate_code` sets the status to `active` with no
guard on the current status, so the `completed` status is not terminal: the
concrete completed session `sessDone` leaves `completed` when activated. -/
theorem activate_leaves_completed :
    sessDone.status = Status.completed ∧
    (activate sessDone).status = Status.active ∧
    (activate sessDone).status ≠ sessDone.status := by decide

/-- C7 amended: the core operations guard no transition: `activate` sets the
status to `active` and `complete` sets it to `completed` regardless of the
prior status (including `completed` and `cancelled`), so neither of those
statuses is terminal; no cancel operation exists among the core views. -/
theorem status_transitions_unguarded (s : Session) :
    (activate s).status = Status.active ∧
    (complete s).status = Status.completed := by
  constructor
  · unfold activate
    rw [save_status]
  · unfold complete
    rw [save_status]

/-- C10: the per-session tally is total at its edge cases: zero enrollment
yields rate 0 (no division), and the absent count is clamped at 0, in
particular when present marks exceed the enrollment count. -/
theorem chart_edge_cases (db : DB) (m : Session) :
    ((apiAttendanceChart db m).enrolled = 0 → (apiAttendanceChart db m).rate = 0) ∧
    0 ≤ (apiAttendanceChart db m).absent ∧
    ((apiAttendanceChart db m).enrolled ≤ (apiAttendanceChart db m).present →
      (apiAttendanceChart db m).absent = 0) := by
  refine ⟨?_, ?_, ?_⟩
  · intro h
    simp only [apiAttendanceChart] at h ⊢
    rw [if_pos h]
  · simp only [apiAttendanceChart]
    exact le_max_right _ _
  · intro h
    simp only [apiAttendanceChart] at h ⊢
    rw [max_eq_right]
    exact sub_nonpos.2 (by exact_mod_cast h)

/-- Witness for C10: session 30's course has zero enrolled students while
five present marks exist, yet the rate is 0 and the absent count is 0. -/
theorem chart_edge_cases_witness :
    (apiAttendanceChart chartDB sessNoStudents).rate = 0 ∧
    0 ≤ (apiAttendanceChart chartDB sessNoStudents).absent ∧
    (apiAttendanceChart chartDB sessNoStudents).absent = 0 :=
  ⟨(chart_edge_cases chartDB sessNoStudents).1 (by decide),
   (chart_edge_cases chartDB sessNoStudents).2.1,
   (chart_edge_cases chartDB sessNoStudents).2.2 (by decide)⟩

/-- C6 counterexample: the code's hour ranges are inclusive of their upper
boundary: start hour 11, the upper boundary of the 9-11 range, still gets
factor 0.95, while the claimed half-open reading assigns it the default
0.65. -/
theorem time_factor_boundary_hour_included :
    timeFactor 11 = 19/20 ∧ timeFactorHalfOpen 11 = 13/20 ∧
    timeFactor 11 ≠ timeFactorHalfOpen 11 := by
  with_unfolding_all decide

/-- C6 amended: the time-of-day multiplier is 0.95 for start hours 9-11,
0.90 for 14-16, 0.75 for 17-19 and 0.65 otherwise, each range closed
(inclusive) on both hour boundaries: a start hour exactly at the upper
boundary of a range falls inside that range. -/
theorem time_factor_closed_ranges (hour : Nat) (h : hour < 24) :
    (timeFactor hour = 19/20 ↔ (9 ≤ hour ∧ hour ≤ 11)) ∧
    (timeFactor hour = 9/10 ↔ (14 ≤ hour ∧ hour ≤ 16)) ∧
    (timeFactor hour = 3/4 ↔ (17 ≤ hour ∧ hour ≤ 19)) ∧
    (timeFactor hour = 13/20 ↔
      (¬(9 ≤ hour ∧ hour ≤ 11) ∧ ¬(14 ≤ hour ∧ hour ≤ 16) ∧
        ¬(17 ≤ hour ∧ hour ≤ 19))) := by
  interval_cases hour <;> with_unfolding_all decide

/-- Witness for C6 amended: at the boundary hour 11 the first range still
applies. -/
theorem time_factor_closed_ranges_witness :
    (11 : Nat) < 24 ∧ (timeFactor 11 = 19/20 ↔ (9 ≤ 11 ∧ (11 : Nat) ≤ 11)) :=
  ⟨by decide, (time_factor_closed_ranges 11 (by decide)).1⟩

/-- C5: for course 1 of `demoDB` (3 completed sessions with 20, 25, 30 of 30
enrolled present) and a Tuesday 10:00 target: base rate 5/6 (0.833...),
day factor 0.90, time factor 0.95, predicted rate 57/80 = 0.7125 (reported
as the rounded percentage 71.2), rush level medium since
0.65 < 57/80 ≤ 0.85, and predicted count ⌊30 × 0.7125⌋ = 21. -/
theorem predict_example_course :
    baseRate demoDB 1 = 5/6 ∧
    dayFactor (weekday 1) = 9/10 ∧
    timeFactor (600 / 60) = 19/20 ∧
    baseRate demoDB 1 * dayFactor (weekday 1) * timeFactor (600 / 60) = 57/80 ∧
    (13 : ℚ)/20 < 57/80 ∧ (57 : ℚ)/80 ≤ 17/20 ∧
    (predictAttendance demoDB 1 1 600).rushLevel = "medium" ∧
    (predictAttendance demoDB 1 1 600).predictedCount = 21 ∧
    (predictAttendance demoDB 1 1 600).enrolledCount = 30 ∧
    (predictAttendance demoDB 1 1 600).predictedRate = 356/5 := by
  with_unfolding_all decide

/-- C8 counterexample: with no existing sessions and the scan starting on a
Monday, the returned recommendations carry the score list
[130, 130, 125, 125, 120], which is not strictly descending (adjacent
scores tie), refuting the claimed strict sortedness. -/
theorem recommendations_have_tied_scores :
    (getScheduleRecommendations emptyDB 1 0).map (fun r => r.score) =
      [130, 130, 125, 125, 120] ∧
    ¬ List.Pairwise (fun a b : Rec => b.score < a.score)
      (getScheduleRecommendations emptyDB 1 0) := by decide

/-- C8 amended: for every store, course and scan base date, the
recommendation list (the early-stopping 14-day scan, sorted and cut) has at
most 5 entries and is sorted by score in non-increasing (not necessarily
strictly decreasing) order. -/
theorem recommendations_sorted_bounded (db : DB) (courseId base : Nat) :
    (getScheduleRecommendations db courseId base).length ≤ 5 ∧
    List.Pairwise (fun a b : Rec => b.score ≤ a.score)
      (getScheduleRecommendations db courseId base) := by
  constructor
  · unfold getScheduleRecommendations
    rw [List.length_take]
    exact min_le_left _ _
  · unfold getScheduleRecommendations
    have hs := pairwise_sortOrd (fun a b : Rec => decide (b.score ≤ a.score))
      (fun a b h => decide_eq_true (le_of_lt (lt_of_not_le (of_decide_eq_false h))))
      (fun a b c hab hbc =>
        decide_eq_true (le_trans (of_decide_eq_true hbc) (of_decide_eq_true hab)))
      (collectSlots (bookedSlots db courseId) 14 base [])
    have hs2 : (sortOrd (fun a b : Rec => decide (b.score ≤ a.score))
        (collectSlots (bookedSlots db courseId) 14 base [])).Pairwise
        (fun a b : Rec => b.score ≤ a.score) :=
      hs.imp (fun h => of_decide_eq_true h)
    exact List.Pairwise.sublist (List.take_sublist 5 _) hs2

/-- C9: whenever at least 3 completed sessions exist and the mean rate of
the 3 most recent equals the mean of the 3 earliest — in particular when
exactly 3 exist, where the windows coincide — the trend insight is
`declining`; `improving` requires the recent mean to be strictly greater. -/
theorem trend_equal_means_declining (db : DB) (courseId : Nat) :
    (3 ≤ (patternRates db courseId).length →
      recentAvg (patternRates db courseId) = olderAvg (patternRates db courseId) →
      trendInsight db courseId = some "declining") ∧
    ((patternRates db courseId).length = 3 →
      trendInsight db courseId = some "declining") ∧
    (trendInsight db courseId = some "improving" →
      olderAvg (patternRates db courseId) < recentAvg (patternRates db courseId)) := by
  have main : 3 ≤ (patternRates db courseId).length →
      recentAvg (patternRates db courseId) = olderAvg (patternRates db courseId) →
      trendInsight db courseId = some "declining" := by
    intro h3 heq
    show (if 3 ≤ (patternRates db courseId).length then
        some (if olderAvg (patternRates db courseId) <
            recentAvg (patternRates db courseId) then "improving"
          else "declining")
      else none) = some "declining"
    rw [if_pos h3, if_neg (not_lt.2 (le_of_eq heq))]
  refine ⟨main, ?_, ?_⟩
  · intro h3
    refine main (le_of_eq h3.symm) ?_
    unfold recentAvg olderAvg
    rw [h3, Nat.sub_self, List.drop_zero,
      List.take_of_length_le (le_of_eq h3)]
  · intro himp
    by_cases hlt : olderAvg (patternRates db courseId) <
        recentAvg (patternRates db courseId)
    · exact hlt
    · exfalso
      apply absurd himp
      show ¬ ((if 3 ≤ (patternRates db courseId).length then
          some (if olderAvg (patternRates db courseId) <
              recentAvg (patternRates db courseId) then "improving"
            else "declining")
        else none) = some "improving")
      by_cases h3 : 3 ≤ (patternRates db courseId).length
      · rw [if_pos h3, if_neg hlt]
        simp
      · rw [if_neg h3]
        simp

/-- Witness for C9: `demoDB` has exactly 3 completed sessions for course 1,
and its trend insight is `declining`. -/
theorem trend_equal_means_declining_witness :
    (patternRates demoDB 1).length = 3 ∧
    trendInsight demoDB 1 = some "declining" :=
  ⟨by with_unfolding_all decide,
   (trend_equal_means_declining demoDB 1).2.1 (by with_unfolding_all decide)⟩

/-- C1: with globally unique codes, the check-in outcomes are decided in
precedence order: no session bearing the code gives `not_found`; a session
bearing it with the student not enrolled gives `not_enrolled` regardless of
validity or prior marks (in particular a not-enrolled student presenting an
expired code); an enrolled student with an inactive status or a reached
expiry gives `inactive_or_expired` regardless of prior marks; an enrolled
student with a valid code and an existing mark gives `already_marked`. -/
theorem checkin_precedence (db : DB) (stu : Nat) (stuName code : String)
    (now : Int) (xf ra : Option String)
    (huniq : ∀ a ∈ db.sessions, ∀ b ∈ db.sessions,
      a.remedialCode = b.remedialCode → a = b) :
    ((∀ s ∈ db.sessions, s.remedialCode ≠ code) →
      (markAttendance db stu stuName code now xf ra).1 = CheckinOutcome.notFound) ∧
    (∀ m ∈ db.sessions, m.remedialCode = code →
      (enrolledIn db m.courseId stu = false →
        (markAttendance db stu stuName code now xf ra).1 =
          CheckinOutcome.notEnrolled) ∧
      (enrolledIn db m.courseId stu = true →
        (m.status ≠ Status.active ∨ ∀ e, m.codeExpiry = some e → e ≤ now) →
        (markAttendance db stu stuName code now xf ra).1 =
          CheckinOutcome.inactiveOrExpired) ∧
      (enrolledIn db m.courseId stu = true →
        isCodeValid m now = true →
        (∃ r ∈ db.records, r.makeupClass = m.id ∧ r.student = stu) →
        (markAttendance db stu stuName code now xf ra).1 =
          CheckinOutcome.alreadyMarked)) := by
  constructor
  · intro hnone
    have hfind : db.sessions.find? (fun s => s.remedialCode = code) = none :=
      List.find?_eq_none.2 (fun s hs => by simp [hnone s hs])
    unfold markAttendance
    rw [hfind]
  · intro m hm hc
    have hfind := find_code_of_mem db code huniq m hm hc
    refine ⟨?_, ?_, ?_⟩
    · intro hne
      unfold markAttendance
      rw [hfind]
      simp [hne]
    · intro hen hinv
      have hval : isCodeValid m now = false := by
        cases hb : isCodeValid m now
        · rfl
        · exfalso
          rcases (isCodeValid_iff m now).1 hb with ⟨hact, e, he, hlt⟩
          rcases hinv with h1 | h2
          · exact h1 hact
          · exact absurd hlt (not_lt.2 (h2 e he))
      unfold markAttendance
      rw [hfind]
      simp [hen, hval]
    · intro hen hval hex
      have hany : db.records.any
          (fun r => r.makeupClass = m.id && r.student = stu) = true := by
        rw [List.any_eq_true]
        rcases hex with ⟨r, hr, h1, h2⟩
        exact ⟨r, hr, by simp [h1, h2]⟩
      unfold markAttendance
      rw [hfind]
      simp [hen, hval, hany]

/-- Witness for C1: in `checkinDB` (unique codes), submitting an unknown
code yields `not_found`, and student 9 — not enrolled in course 2 — gets
`not_enrolled` even though the presented code is the live one. -/
theorem checkin_precedence_witness :
    (markAttendance checkinDB 7 "Asha Rao" "ZZZZZZZZ" 500 none
      (some "10.0.0.9")).1 = CheckinOutcome.notFound ∧
    (markAttendance checkinDB 9 "Ira Shah" "AB12CD34" 500 none
      (some "10.0.0.9")).1 = CheckinOutcome.notEnrolled :=
  ⟨(checkin_precedence checkinDB 7 "Asha Rao" "ZZZZZZZZ" 500 none
      (some "10.0.0.9") (by decide)).1 (by decide),
   ((checkin_precedence checkinDB 9 "Ira Shah" "AB12CD34" 500 none
      (some "10.0.0.9") (by decide)).2 sessW (by decide) (by decide)).1
      (by decide)⟩

/-- C2: a check-in that reaches the success branch (code found, student
enrolled, code valid, no prior mark) returns `success` and appends exactly
one attendance record — present, verification method "code", the requester's
origin address captured — and exactly one notification addressed to the
session's owning faculty member; the session and course tables are
untouched. -/
theorem checkin_success_effects (db : DB) (stu : Nat) (stuName code : String)
    (now : Int) (xf ra : Option String) (m : Session)
    (hfind : db.sessions.find? (fun s => s.remedialCode = code) = some m)
    (hen : enrolledIn db m.courseId stu = true)
    (hval : isCodeValid m now = true)
    (hno : ¬ ∃ r ∈ db.records, r.makeupClass = m.id ∧ r.student = stu) :
    (markAttendance db stu stuName code now xf ra).1 = CheckinOutcome.success ∧
    (markAttendance db stu stuName code now xf ra).2.records =
      db.records ++
        [{ makeupClass := m.id, student := stu, isPresent := true,
           markedAt := now, verificationMethod := "code",
           ipAddress := clientIP xf ra }] ∧
    (markAttendance db stu stuName code now xf ra).2.notifications =
      db.notifications ++
        [{ recipient := m.facultyId,
           notificationType := "attendance_marked",
           title := "Attendance Marked",
           message := stuName ++ " marked attendance for \"" ++ m.title ++ "\".",
           relatedClass := some m.id }] ∧
    (markAttendance db stu stuName code now xf ra).2.sessions = db.sessions ∧
    (markAttendance db stu stuName code now xf ra).2.courses = db.courses := by
  have hany : db.records.any
      (fun r => r.makeupClass = m.id && r.student = stu) = false := by
    rw [Bool.eq_false_iff]
    intro h
    rcases List.any_eq_true.1 h with ⟨r, hr, hpred⟩
    exact hno ⟨r, hr, by simpa using hpred⟩
  unfold markAttendance
  rw [hfind]
  simp [hen, hval, hany]

/-- Witness for C2: student 7 checks in to `checkinDB` with the live code at
time 500: the outcome is `success` and exactly one record is appended. -/
theorem checkin_success_effects_witness :
    (markAttendance checkinDB 7 "Asha Rao" "AB12CD34" 500 none
      (some "10.0.0.9")).1 = CheckinOutcome.success ∧
    (markAttendance checkinDB 7 "Asha Rao" "AB12CD34" 500 none
      (some "10.0.0.9")).2.records.length = checkinDB.records.length + 1 ∧
    (markAttendance checkinDB 7 "Asha Rao" "AB12CD34" 500 none
      (some "10.0.0.9")).2.notifications.length =
      checkinDB.notifications.length + 1 := by
  have h := checkin_success_effects checkinDB 7 "Asha Rao" "AB12CD34" 500 none
    (some "10.0.0.9") sessW (by decide) (by decide) (by decide) (by decide)
  refine ⟨h.1, ?_, ?_⟩
  · rw [h.2.1]
    simp
  · rw [h.2.2.1]
    simp

end AttendX
